import Mathlib

/-!
Shallow embedding of the `observables` Python package: `Observable`,
`ObservableValue`, `ObservableList`, `ObservableDict`, `ObservableObject`.

Python values stored in the containers are modelled by `PyVal`; the Python
constant `None` is `PyVal.none`, so the "none marker" used for absent
old/new event fields is, exactly as in the source, the ordinary value
`None`.  Python `==` on these values is decidable equality on `PyVal`.
Exceptions are modelled by `PyErr`.  Dicts and attribute bags are modelled
as insertion-ordered association lists, matching CPython's insertion-order
preserving `dict`.
-/

/-- A Python value as far as the claims need: `None`, booleans, ints,
strings, and opaque callable references (identified by a token). -/
inductive PyVal where
  | none
  | bool (b : Bool)
  | int (n : Int)
  | str (s : String)
  | callable (id : Nat)
deriving DecidableEq, Repr

/-- The Python exception classes raised by the embedded code. -/
inductive PyErr where
  | typeErr (msg : String)
  | keyErr
  | indexErr
  | valueErr
  | attrErr
deriving DecidableEq, Repr

/-- CPython `dict` assignment on an insertion-ordered association list:
an existing key keeps its position and gets the new value, a new key is
appended at the end. -/
def setEntry {κ α : Type} [DecidableEq κ] : List (κ × α) → κ → α → List (κ × α)
  | [], k, v => [(k, v)]
  | (k', v') :: rest, k, v =>
    if k = k' then (k, v) :: rest else (k', v') :: setEntry rest k v

/-- CPython `dict` lookup: the value stored under the first matching key. -/
def lookupEntry {κ α : Type} [DecidableEq κ] : List (κ × α) → κ → Option α
  | [], _ => Option.none
  | (k', v') :: rest, k => if k = k' then some v' else lookupEntry rest k

/-- CPython `dict` deletion: drop the entry with a matching key. -/
def eraseEntry {κ α : Type} [DecidableEq κ] : List (κ × α) → κ → List (κ × α)
  | [], _ => []
  | (k', v') :: rest, k =>
    if k = k' then rest else (k', v') :: eraseEntry rest k

/-- CPython `list.remove`-style removal of the first element equal to `x`;
`Option.none` when no element matches (the caller raises `ValueError`). -/
def removeFirst {α : Type} [DecidableEq α] : List α → α → Option (List α)
  | [], _ => Option.none
  | y :: rest, x =>
    if y = x then some rest
    else (removeFirst rest x).map (fun l => y :: l)

/-- Result of one mutating container operation: the storage afterwards
(the pre-state when the operation raised before mutating), the events
handed to the before- and after-observer lists, the return value, and the
exception if one was raised. -/
structure OpRes (σ ε ρ : Type) where
  state : σ
  before : List ε
  after : List ε
  ret : ρ
  err : Option PyErr
deriving Repr, DecidableEq

/-! ## Observable (src/observables/Observable.py)

`_call_before_observers` / `_call_after_observers` iterate the observer
list in registration order, calling each callback with the event.  A
callback is modelled as a handle (a `Nat`); what the callback does with an
event is an environment `env : Nat → ε → Option PyErr`, where `some e`
means the callback raises `e`.  The result is the invocation trace (which
handle was called with which event, in order) and the propagated
exception, if any: a raising callback aborts the remaining callbacks of
the same list, exactly as an uncaught exception in the Python `for` loop. -/

def callObservers {ε : Type} (env : Nat → ε → Option PyErr) :
    List Nat → ε → List (Nat × ε) × Option PyErr
  | [], _ => ([], Option.none)
  | c :: cs, ev =>
    match env c ev with
    | some e => ([(c, ev)], some e)
    | Option.none =>
      let r := callObservers env cs ev
      ((c, ev) :: r.1, r.2)

/-! ## ObservableValue.set (src/observables/ObservableValue.py, lines 59-71)

`set` with its surrounding dispatch: callbacks receive
`(self, old_value, new_value)`; `self` is modelled by the instance id.
If the stored value equals the new one the method returns at once with no
dispatch.  Otherwise the before-observers run, then the slot is written,
then the after-observers run; an exception from a before-observer leaves
the slot unwritten, one from an after-observer leaves it written. -/

/-- Event record passed to an `ObservableValue` observer:
`(instance id, old value, new value)`. -/
abbrev ValEvent := Nat × PyVal × PyVal

def ObservableValue.setFull (env : Nat → ValEvent → Option PyErr)
    (selfId : Nat) (value newValue : PyVal) (beforeL afterL : List Nat) :
    PyVal × List (Nat × ValEvent) × List (Nat × ValEvent) × Option PyErr :=
  if value = newValue then (value, [], [], Option.none)
  else
    let ev : ValEvent := (selfId, value, newValue)
    let rb := callObservers env beforeL ev
    match rb.2 with
    | some e => (value, rb.1, [], some e)
    | Option.none =>
      let ra := callObservers env afterL ev
      (newValue, rb.1, ra.1, ra.2)

/-! ## ObservableValue binding (src/observables/ObservableValue.py)

A system of `ObservableValue` instances indexed by `Nat`, with the state
the binding machinery touches: the value slot `_value`, the
`_afterObserverList`, and the `_bindingMap`.  `bind_to` installs on the
other instance a fresh forwarding lambda `lambda _1, _2, n: self.set(n)`;
lambdas compare by identity in Python, so each installed handle carries a
fresh token drawn from `nextTok`.  `set` re-enters `set` on the bound
targets through after-dispatch, so it takes a fuel bound; `Option.none`
means the fuel ran out (never the case in the proved runs; claim C9 shows
fuel-insensitivity for the bound pair).  Before-observer lists stay empty
here: the binding machinery of the source only ever installs
after-observers, and external callbacks are treated in the dispatch model
above. -/

/-- An after-observer installed by `bind_to`: the forwarding lambda
`lambda _1, _2, n: target.set(n)`, identified by its creation token. -/
inductive OVObs where
  | fwd (token : Nat) (target : Nat)
deriving DecidableEq, Repr

/-- State of a system of `ObservableValue` instances: per instance id its
`_value`, its `_afterObserverList` and its `_bindingMap` (other instance
id mapped to the token of the forwarding lambda installed on the other),
plus a counter supplying fresh lambda identities. -/
structure OVState where
  values : Nat → PyVal
  afterObs : Nat → List OVObs
  bindingMap : Nat → List (Nat × Nat)
  nextTok : Nat

/-- `ObservableValue.set` (lines 59-71) over the binding system.  Equal
incoming value: immediate return.  Otherwise the slot is written and the
after-observers run in registration order; each forwarding observer
re-enters `set` on its target with the new value.  `fuel` bounds the
re-entrance depth. -/
def OVState.setF : Nat → OVState → Nat → PyVal → Option OVState
  | 0, _, _, _ => Option.none
  | fuel + 1, s, i, v =>
    if s.values i = v then some s
    else
      let s1 : OVState := { s with values := fun j => if j = i then v else s.values j }
      (s1.afterObs i).foldl
        (fun acc obs =>
          acc.bind (fun st =>
            match obs with
            | OVObs.fwd _ tgt => OVState.setF fuel st tgt v))
        (some s1)

/-- `ObservableValue.bind_to` (lines 82-95): store a fresh forwarding
lambda in `self`'s `_bindingMap` under `other` (overwriting any previous
handle for `other`), append that lambda to `other`'s after-observer list,
then synchronize once with `self.set(other.get())`.  Every modelled
instance is an `ObservableValue`, so the `isinstance` check passes. -/
def OVState.bind_to (fuel : Nat) (s : OVState) (selfI other : Nat) : Option OVState :=
  let tok := s.nextTok
  let s1 : OVState :=
    { s with
      nextTok := tok + 1
      bindingMap := fun j =>
        if j = selfI then setEntry (s.bindingMap selfI) other tok else s.bindingMap j
      afterObs := fun j =>
        if j = other then s.afterObs other ++ [OVObs.fwd tok selfI] else s.afterObs j }
  OVState.setF fuel s1 selfI (s1.values other)

/-- `ObservableValue.unbind_from` (lines 97-108): look the handle up in
`self`'s `_bindingMap` (`AttributeError` when `other` is not a key), then
call `self.remove_after_observer(self._bindingMap[observable])` — note the
receiver: the source removes from `self`'s OWN after-observer list, even
though `bind_to` installed the handle on the OTHER instance's list.
`list.remove` drops the first occurrence identical to the handle and
raises `ValueError` when it is absent; on that exception the trailing
`del self._bindingMap[observable]` never runs, so an error result leaves
the whole state — observer lists and binding map — unchanged. -/
def OVState.unbind_from (s : OVState) (selfI other : Nat) : Except PyErr OVState :=
  match lookupEntry (s.bindingMap selfI) other with
  | Option.none =>
    Except.error PyErr.attrErr
  | some tok =>
    match removeFirst (s.afterObs selfI) (OVObs.fwd tok selfI) with
    | Option.none => Except.error PyErr.valueErr
    | some l2 =>
      Except.ok
        { s with
          afterObs := fun j => if j = selfI then l2 else s.afterObs j
          bindingMap := fun j =>
            if j = selfI then eraseEntry (s.bindingMap selfI) other else s.bindingMap j }

/-- Static `ObservableValue.bind(obs1, obs2)` (lines 23-34):
`obs2.bind_to(obs1)` first, then `obs1.bind_to(obs2)`. -/
def OVState.bind (fuel : Nat) (s : OVState) (i1 i2 : Nat) : Option OVState :=
  (OVState.bind_to fuel s i2 i1).bind (fun s1 => OVState.bind_to fuel s1 i1 i2)

/-- A fresh two-instance system: instance `0` holds `va`, instance `1`
holds `vb`, no observers, no bindings. -/
def freshPair (va vb : PyVal) : OVState :=
  { values := fun j => if j = 0 then va else if j = 1 then vb else PyVal.none
    afterObs := fun _ => []
    bindingMap := fun _ => []
    nextTok := 0 }

/-- The system after `ObservableValue.bind(a, b)` on a fresh pair
`a = ObservableValue(va)` (id 0), `b = ObservableValue(vb)` (id 1). -/
def mkBound (va vb : PyVal) : Option OVState := OVState.bind 3 (freshPair va vb) 0 1

/-! ## ObservableList (src/ObservableList.py)

Storage is a `List PyVal`; indices are Python ints (negative allowed).
Events carry the raw locator as passed by the source (`Option.none` for
the Python `None` locator of clear/reverse/sort), and old/new fields that
are either a plain value or, for `extend`, the iterable argument passed
through unmodified. -/

/-- Normalize a Python index against a length: negative indices count from
the end; `Option.none` when the index is out of range (`IndexError`). -/
def pyNorm (len : Nat) (i : Int) : Option Nat :=
  let j : Int := if i < 0 then i + len else i
  if 0 ≤ j ∧ j < len then some j.toNat else Option.none

/-- Python `list.__getitem__` with an int index. -/
def pyGetitem (l : List PyVal) (i : Int) : Option PyVal :=
  (pyNorm l.length i).bind (fun n => l.get? n)

/-- Python `list.insert` position: negative indices count from the end and
the result is clamped into `[0, len]`. -/
def pyInsertPos (len : Nat) (i : Int) : Nat :=
  (if i < 0 then max 0 (i + len) else min i len).toNat

/-- Old/new field of an `ObservableList` event: a plain value, or the
iterable argument that `extend` passes through unmodified. -/
inductive EvArg where
  | v (x : PyVal)
  | iter (xs : List PyVal)
deriving DecidableEq, Repr

/-- Event record passed to `ObservableList` observers (after the constant
`self` argument): operation tag, locator, old value, new value. -/
structure LEvent where
  op : String
  loc : Option Int
  old : EvArg
  new : EvArg
deriving DecidableEq, Repr

namespace ObservableList

def APPEND : String := "append"
def INSERT : String := "insert"
def MODIFY : String := "modify"
def DELETE : String := "delete"
def CLEAR : String := "clear"
def EXTEND : String := "extend"
def REVERSE : String := "reverse"
def SORT : String := "sort"

/-- `ObservableList.append` (lines 37-47). -/
def append (l : List PyVal) (v : PyVal) : OpRes (List PyVal) LEvent Unit :=
  let ev : LEvent := ⟨APPEND, some (l.length : Int), EvArg.v PyVal.none, EvArg.v v⟩
  ⟨l ++ [v], [ev], [ev], (), Option.none⟩

/-- `ObservableList.clear` (lines 49-56). -/
def clear (_l : List PyVal) : OpRes (List PyVal) LEvent Unit :=
  let ev : LEvent := ⟨CLEAR, Option.none, EvArg.v PyVal.none, EvArg.v PyVal.none⟩
  ⟨[], [ev], [ev], (), Option.none⟩

/-- `ObservableList.extend` (lines 58-68): one event pair for the whole
batch, with the iterable argument as new value. -/
def extend (l : List PyVal) (xs : List PyVal) : OpRes (List PyVal) LEvent Unit :=
  let ev : LEvent := ⟨EXTEND, some (l.length : Int), EvArg.v PyVal.none, EvArg.iter xs⟩
  ⟨l ++ xs, [ev], [ev], (), Option.none⟩

/-- `ObservableList.insert` (lines 70-83): the old value is
`self[index] if index < len(self) else None` (so an index in
`[-len, len)` reads the displaced element, an index below `-len` raises
`IndexError` before any dispatch), then `list.insert` with Python's
clamping placement. -/
def insert (l : List PyVal) (i : Int) (v : PyVal) : OpRes (List PyVal) LEvent Unit :=
  let oldLookup : Option PyVal :=
    if i < (l.length : Int) then pyGetitem l i else some PyVal.none
  match oldLookup with
  | Option.none => ⟨l, [], [], (), some PyErr.indexErr⟩
  | some old =>
    let ev : LEvent := ⟨INSERT, some i, EvArg.v old, EvArg.v v⟩
    let p := pyInsertPos l.length i
    ⟨l.take p ++ v :: l.drop p, [ev], [ev], (), Option.none⟩

/-- `ObservableList.pop` (lines 85-99): `self[index]` first (`IndexError`
propagates with no dispatch), then one DELETE pair around `list.pop`,
returning the removed value. -/
def pop (l : List PyVal) (i : Int) : OpRes (List PyVal) LEvent (Option PyVal) :=
  match pyNorm l.length i with
  | Option.none => ⟨l, [], [], Option.none, some PyErr.indexErr⟩
  | some n =>
    let old := l.getD n PyVal.none
    let ev : LEvent := ⟨DELETE, some i, EvArg.v old, EvArg.v PyVal.none⟩
    ⟨l.eraseIdx n, [ev], [ev], some old, Option.none⟩

/-- `ObservableList.remove` (lines 101-111): `self.index(value)` finds the
first index holding the value (`ValueError` propagates with no dispatch),
then one DELETE pair with the argument value as old value around
`list.remove`. -/
def remove (l : List PyVal) (v : PyVal) : OpRes (List PyVal) LEvent Unit :=
  match l.findIdx? (fun x => x = v) with
  | Option.none => ⟨l, [], [], (), some PyErr.valueErr⟩
  | some n =>
    let ev : LEvent := ⟨DELETE, some (n : Int), EvArg.v v, EvArg.v PyVal.none⟩
    ⟨l.eraseIdx n, [ev], [ev], (), Option.none⟩

/-- `ObservableList.reverse` (lines 113-119). -/
def reverse (l : List PyVal) : OpRes (List PyVal) LEvent Unit :=
  let ev : LEvent := ⟨REVERSE, Option.none, EvArg.v PyVal.none, EvArg.v PyVal.none⟩
  ⟨l.reverse, [ev], [ev], (), Option.none⟩

/-- `ObservableList.sort` (lines 121-133): one SORT pair with the key
argument as old value and the reverse flag as new value around the
builtin `list.sort`; the builtin is not repository code and no claim
depends on the sorted order, so its effect on storage is a parameter. -/
def sort (sortImpl : List PyVal → List PyVal) (l : List PyVal)
    (key : PyVal) (rev : Bool) : OpRes (List PyVal) LEvent Unit :=
  let ev : LEvent := ⟨SORT, Option.none, EvArg.v key, EvArg.v (PyVal.bool rev)⟩
  ⟨sortImpl l, [ev], [ev], (), Option.none⟩

/-- `ObservableList.__setitem__` (lines 138-144): `self[index]` first
(`IndexError` propagates with no dispatch); equal old value: immediate
return with no dispatch; otherwise one MODIFY pair around the write. -/
def setitem (l : List PyVal) (i : Int) (v : PyVal) : OpRes (List PyVal) LEvent Unit :=
  match pyNorm l.length i with
  | Option.none => ⟨l, [], [], (), some PyErr.indexErr⟩
  | some n =>
    let old := l.getD n PyVal.none
    if old = v then ⟨l, [], [], (), Option.none⟩
    else
      let ev : LEvent := ⟨MODIFY, some i, EvArg.v old, EvArg.v v⟩
      ⟨l.set n v, [ev], [ev], (), Option.none⟩

/-- CPython: `dict.__delitem__` is an unbound method descriptor of `dict`;
applying it to an `ObservableList` instance (a `list`, not a `dict`)
raises `TypeError` before touching the storage. -/
def dict_delitem_on_list (_l : List PyVal) (_i : Int) : Except PyErr (List PyVal) :=
  Except.error (PyErr.typeErr "descriptor requires a dict object")

/-- `ObservableList.__delitem__` (lines 146-150): `self[index]` first
(`IndexError` propagates with no dispatch), then the before DELETE event,
then `dict.__delitem__(self, index)` — which raises `TypeError`, so the
after event is never dispatched and the storage is never mutated. -/
def delitem (l : List PyVal) (i : Int) : OpRes (List PyVal) LEvent Unit :=
  match pyGetitem l i with
  | Option.none => ⟨l, [], [], (), some PyErr.indexErr⟩
  | some old =>
    let ev : LEvent := ⟨DELETE, some i, EvArg.v old, EvArg.v PyVal.none⟩
    match dict_delitem_on_list l i with
    | Except.error e => ⟨l, [ev], [], (), some e⟩
    | Except.ok l2 => ⟨l2, [ev], [ev], (), Option.none⟩

end ObservableList

/-! ## ObservableDict (src/observables/ObservableDict.py)

Storage is an insertion-ordered association list with unique keys, the
shape `dict` guarantees.  Events carry operation tag, key, old value and
new value; the Python `None` passed for absent fields is `PyVal.none`. -/

/-- Event record passed to `ObservableDict` observers (after the constant
`self` argument). -/
structure DEvent where
  op : String
  key : PyVal
  old : PyVal
  new : PyVal
deriving DecidableEq, Repr

namespace ObservableDict

def CREATE : String := "create"
def MODIFY : String := "modify"
def DELETE : String := "delete"
def CLEAR : String := "clear"

/-- `ObservableDict.__setitem__` (lines 99-107): presence check decides
CREATE vs MODIFY; the old value is the stored one when present, `None`
otherwise; a MODIFY whose new value equals the old one returns with no
dispatch (CREATE never takes that branch), otherwise one event pair
around `dict.__setitem__`. -/
def setitem (d : List (PyVal × PyVal)) (k v : PyVal) :
    OpRes (List (PyVal × PyVal)) DEvent Unit :=
  match lookupEntry d k with
  | some old =>
    if old = v then ⟨d, [], [], (), Option.none⟩
    else
      let ev : DEvent := ⟨MODIFY, k, old, v⟩
      ⟨setEntry d k v, [ev], [ev], (), Option.none⟩
  | Option.none =>
    let ev : DEvent := ⟨CREATE, k, PyVal.none, v⟩
    ⟨setEntry d k v, [ev], [ev], (), Option.none⟩

/-- `ObservableDict.clear` (lines 35-42): a single CLEAR pair with all
event fields `None` around `dict.clear`. -/
def clear (_d : List (PyVal × PyVal)) : OpRes (List (PyVal × PyVal)) DEvent Unit :=
  let ev : DEvent := ⟨CLEAR, PyVal.none, PyVal.none, PyVal.none⟩
  ⟨[], [ev], [ev], (), Option.none⟩

/-- `ObservableDict.pop` (lines 44-59): `self[key]` first (`KeyError`
propagates with no dispatch and no mutation when the key is absent), then
one DELETE pair around `dict.pop(self, key, default)`; since the key is
present at that point, the returned value is the stored one. -/
def pop (d : List (PyVal × PyVal)) (k _default : PyVal) :
    OpRes (List (PyVal × PyVal)) DEvent (Option PyVal) :=
  match lookupEntry d k with
  | Option.none => ⟨d, [], [], Option.none, some PyErr.keyErr⟩
  | some old =>
    let ev : DEvent := ⟨DELETE, k, old, PyVal.none⟩
    ⟨eraseEntry d k, [ev], [ev], some old, Option.none⟩

/-- `ObservableDict.popitem` (lines 61-73): `list(self.items())[-1]`
(`IndexError` on an empty dict, no dispatch), then one DELETE pair keyed
by the most recently inserted entry around `dict.popitem`, returning that
entry. -/
def popitem (d : List (PyVal × PyVal)) :
    OpRes (List (PyVal × PyVal)) DEvent (Option (PyVal × PyVal)) :=
  match d.getLast? with
  | Option.none => ⟨d, [], [], Option.none, some PyErr.indexErr⟩
  | some (k, old) =>
    let ev : DEvent := ⟨DELETE, k, old, PyVal.none⟩
    ⟨d.dropLast, [ev], [ev], some (k, old), Option.none⟩

/-- `ObservableDict.__delitem__` (lines 109-113): `self[key]` first
(`KeyError` propagates with no dispatch), then one DELETE pair around
`dict.__delitem__`. -/
def delitem (d : List (PyVal × PyVal)) (k : PyVal) :
    OpRes (List (PyVal × PyVal)) DEvent Unit :=
  match lookupEntry d k with
  | Option.none => ⟨d, [], [], (), some PyErr.keyErr⟩
  | some old =>
    let ev : DEvent := ⟨DELETE, k, old, PyVal.none⟩
    ⟨eraseEntry d k, [ev], [ev], (), Option.none⟩

/-- The `data` argument of `ObservableDict.update`: `None` (the default),
a dict, or a sequence of key-value pairs. -/
inductive UpdateData where
  | noneData
  | dictData (m : List (PyVal × PyVal))
  | seqData (ps : List (PyVal × PyVal))
deriving DecidableEq, Repr

/-- Python truthiness of the `data` argument: `None`, an empty dict and an
empty sequence are falsy. -/
def UpdateData.falsy : UpdateData → Bool
  | UpdateData.noneData => true
  | UpdateData.dictData m => m.isEmpty
  | UpdateData.seqData ps => ps.isEmpty

/-- Assign a sequence of key-value pairs one by one through
`__setitem__`, accumulating storage and dispatched events in order. -/
def setitemFold (acc : List (PyVal × PyVal) × List DEvent × List DEvent) :
    List (PyVal × PyVal) → List (PyVal × PyVal) × List DEvent × List DEvent
  | [] => acc
  | (k, v) :: rest =>
    let r := setitem acc.1 k v
    setitemFold (r.state, acc.2.1 ++ r.before, acc.2.2 ++ r.after) rest

/-- `ObservableDict.update` (lines 75-94): falsy `data` returns at once
(even when `kwargs` is non-empty); a dict `data` assigns its keys in
iteration order through `__setitem__` and then returns — the source's
`return` inside the dict branch skips the `kwargs` loop; a sequence
`data` assigns its pairs and then the `kwargs` pairs through
`__setitem__`. -/
def update (d : List (PyVal × PyVal)) (data : UpdateData)
    (kwargs : List (PyVal × PyVal)) : OpRes (List (PyVal × PyVal)) DEvent Unit :=
  if data.falsy then ⟨d, [], [], (), Option.none⟩
  else
    match data with
    | UpdateData.noneData => ⟨d, [], [], (), Option.none⟩
    | UpdateData.dictData m =>
      let r := setitemFold (d, [], []) m
      ⟨r.1, r.2.1, r.2.2, (), Option.none⟩
    | UpdateData.seqData ps =>
      let r := setitemFold (setitemFold (d, [], []) ps) kwargs
      ⟨r.1, r.2.1, r.2.2, (), Option.none⟩

end ObservableDict

/-! ## ObservableObject (src/observables/ObservableObject.py)

The attribute bag is an association list from attribute name to value.
Names starting with `"_"` bypass the observable machinery and go straight
to plain attribute storage (`Observable.__setattr__` /
`Observable.__delattr__`), which is how the bookkeeping attributes avoid
recursing; `hasattr`/`getattr` on the modelled data attributes is lookup
in the bag. -/

/-- Python `key.startswith("_")` for the one-character prefix `"_"`: the
first character of the name is an underscore. -/
def startsUnderscore (k : String) : Bool :=
  match k.data with
  | [] => false
  | c :: _ => c = '_'

/-- Event record passed to `ObservableObject` observers (after the
constant `self` argument). -/
structure OEvent where
  op : String
  key : String
  old : PyVal
  new : PyVal
deriving DecidableEq, Repr

namespace ObservableObject

def CREATE : String := "create"
def MODIFY : String := "modify"
def DELETE : String := "delete"

/-- `ObservableObject.__setattr__` (lines 30-40): a reserved `"_"`-prefixed
name is stored plainly with no dispatch; otherwise a presence check
decides CREATE vs MODIFY, a MODIFY to an equal value returns with no
dispatch, and otherwise one event pair surrounds the attribute write. -/
def setattr (o : List (String × PyVal)) (k : String) (v : PyVal) :
    OpRes (List (String × PyVal)) OEvent Unit :=
  if startsUnderscore k then ⟨setEntry o k v, [], [], (), Option.none⟩
  else
    match lookupEntry o k with
    | some old =>
      if old = v then ⟨o, [], [], (), Option.none⟩
      else
        let ev : OEvent := ⟨MODIFY, k, old, v⟩
        ⟨setEntry o k v, [ev], [ev], (), Option.none⟩
    | Option.none =>
      let ev : OEvent := ⟨CREATE, k, PyVal.none, v⟩
      ⟨setEntry o k v, [ev], [ev], (), Option.none⟩

/-- `ObservableObject.__delattr__` (lines 42-48): a reserved
`"_"`-prefixed name is deleted plainly with no dispatch; otherwise
`getattr` first (`AttributeError` propagates with no dispatch when the
attribute is absent), then one DELETE pair around the deletion. -/
def delattr (o : List (String × PyVal)) (k : String) :
    OpRes (List (String × PyVal)) OEvent Unit :=
  if startsUnderscore k then
    match lookupEntry o k with
    | Option.none => ⟨o, [], [], (), some PyErr.attrErr⟩
    | some _ => ⟨eraseEntry o k, [], [], (), Option.none⟩
  else
    match lookupEntry o k with
    | Option.none => ⟨o, [], [], (), some PyErr.attrErr⟩
    | some old =>
      let ev : OEvent := ⟨DELETE, k, old, PyVal.none⟩
      ⟨eraseEntry o k, [ev], [ev], (), Option.none⟩

end ObservableObject

/-! ## Helper lemmas -/

theorem lookupEntry_setEntry_ne {κ α : Type} [DecidableEq κ]
    (l : List (κ × α)) (k k' : κ) (v : α) (h : k' ≠ k) :
    lookupEntry (setEntry l k v) k' = lookupEntry l k' := by
  induction l with
  | nil => simp [setEntry, lookupEntry, h]
  | cons p rest ih =>
    obtain ⟨pk, pv⟩ := p
    by_cases hk : k = pk
    · subst hk
      simp [setEntry, lookupEntry, h]
    · simp only [setEntry, if_neg hk, lookupEntry]
      by_cases hk' : k' = pk
      · simp [hk']
      · simp [hk', ih]

theorem setEntry_eq_self {κ α : Type} [DecidableEq κ] [DecidableEq α]
    (l : List (κ × α)) (k : κ) (v : α) (h : lookupEntry l k = some v) :
    setEntry l k v = l := by
  induction l with
  | nil => simp [lookupEntry] at h
  | cons p rest ih =>
    obtain ⟨pk, pv⟩ := p
    by_cases hk : k = pk
    · subst hk
      simp [lookupEntry] at h
      simp [setEntry, h]
    · simp [lookupEntry, hk] at h
      simp [setEntry, hk, ih h]

theorem pyNorm_lt (len : Nat) (i : Int) (n : Nat) (h : pyNorm len i = some n) :
    n < len := by
  simp only [pyNorm] at h
  by_cases hneg : i < 0 <;>
    simp only [hneg, if_true, if_false, ite_true, ite_false] at h <;>
    split at h <;> simp_all <;> omega

theorem pyGetitem_some (l : List PyVal) (i : Int) (v : PyVal)
    (h : pyGetitem l i = some v) :
    ∃ n, pyNorm l.length i = some n ∧ l.getD n PyVal.none = v := by
  unfold pyGetitem at h
  cases hn : pyNorm l.length i with
  | none => simp [hn] at h
  | some n =>
    refine ⟨n, rfl, ?_⟩
    simp [hn] at h
    simp [List.getD_eq_getElem?_getD, ← List.get?_eq_getElem?, h]

/-! ## Claims -/

/-- C1, counterexample: with `a = ObservableValue(1)` and
`b = ObservableValue(2)`, after `ObservableValue.bind(a, b)` both `a.get()`
and `b.get()` return `1` — a's original value — and not `2` as the claim
states: `bind` runs `obs2.bind_to(obs1)` first, so `b` takes `a`'s value,
and the second `bind_to`'s synchronization `a.set(b.get())` is then a
no-op. -/
theorem claim_C1_counterexample :
    (mkBound (PyVal.int 1) (PyVal.int 2)).map (fun s => (s.values 0, s.values 1))
        = some (PyVal.int 1, PyVal.int 1)
      ∧ PyVal.int 1 ≠ PyVal.int 2 := by
  constructor
  · rfl
  · decide

/-- C1, amended: for ObservableValue instances `a` and `b`, after the
static call `ObservableValue.bind(a, b)` both `a.get()` and `b.get()`
return `a`'s value at the moment of the call, because `bind` calls
`b.bind_to(a)` first (so `b` synchronizes to `a`'s value) and the second
`bind_to`'s synchronization `a.set(b.get())` is then a no-op. -/
theorem claim_C1_amended (va vb : PyVal) :
    (mkBound va vb).map (fun s => (s.values 0, s.values 1)) = some (va, va) := by
  by_cases h : vb = va <;>
    simp [mkBound, OVState.bind, OVState.bind_to, freshPair, OVState.setF,
      setEntry, Option.bind, h]

/-- C2: evaluating `ObservableDict.update` at the failing input — an empty
dict updated with `data` the dict holding key `"a"` and `kwargs` holding
key `"b"` — shows that the source's `return` inside the dict branch skips
the `kwargs` loop entirely: only `"a"` is stored and only `"a"`'s CREATE
pair is dispatched, while the claim (and the method's own docstring) say
the `kwargs` key `"b"` is also stored and its event dispatched after the
`data` keys. -/
theorem claim_C2_kwargs_skipped :
    ObservableDict.update []
        (ObservableDict.UpdateData.dictData [(PyVal.str "a", PyVal.int 1)])
        [(PyVal.str "b", PyVal.int 2)]
      = ⟨[(PyVal.str "a", PyVal.int 1)],
         [⟨ObservableDict.CREATE, PyVal.str "a", PyVal.none, PyVal.int 1⟩],
         [⟨ObservableDict.CREATE, PyVal.str "a", PyVal.none, PyVal.int 1⟩],
         (), Option.none⟩ := by
  rfl

/-- C3: evaluating `ObservableList.__delitem__` at the failing input
`del l[0]` on `ObservableList([10])`: the before DELETE event is
dispatched, then `dict.__delitem__(self, index)` raises `TypeError`
because the receiver is a list, so the element is never removed and the
after event never fires — the claim says the element is removed with one
before and one after DELETE event. -/
theorem claim_C3_delitem_type_error :
    ObservableList.delitem [PyVal.int 10] 0
      = ⟨[PyVal.int 10],
         [⟨ObservableList.DELETE, some 0, EvArg.v (PyVal.int 10), EvArg.v PyVal.none⟩],
         [], (), some (PyErr.typeErr "descriptor requires a dict object")⟩ := by
  rfl

/-- C10, counterexample: with `a = ObservableValue(1)` (id 0) and
`b = ObservableValue(2)` (id 1), after `a.bind_to(b)` twice the call
`a.unbind_from(b)` raises `ValueError` — `remove_after_observer` runs on
`a` itself, whose after-observer list is empty, the handles having been
installed on `b` — so it never produces a post-state: the claim's
asserted outcome, that the call removes exactly one observer and leaves
only the stale one on `b`, does not occur. -/
theorem claim_C10_counterexample :
    (((OVState.bind_to 3 (freshPair (PyVal.int 1) (PyVal.int 2)) 0 1).bind
          (fun s1 => OVState.bind_to 3 s1 0 1)).map
        (fun s2 => OVState.unbind_from s2 0 1))
      = some (Except.error PyErr.valueErr)
    ∧ (((OVState.bind_to 3 (freshPair (PyVal.int 1) (PyVal.int 2)) 0 1).bind
          (fun s1 => OVState.bind_to 3 s1 0 1)).bind
        (fun s2 => (OVState.unbind_from s2 0 1).toOption))
      = Option.none := by
  constructor
  · rfl
  · rfl

/-- C10, amended: binding `a.bind_to(b)` twice on fresh
`a = ObservableValue(va)` (id 0) and `b = ObservableValue(vb)` (id 1)
installs two forwarding after-observers on `b` (tokens 0 and 1, both
targeting `a`) while `a`'s `_bindingMap` retains only the most recent
handle (token 1) and `a`'s own after-observer list stays empty; a single
subsequent `a.unbind_from(b)` then removes no observer at all: the source
calls `self.remove_after_observer` on `a`, whose list does not contain
the handle, so `list.remove` raises `ValueError`, the binding-map entry
is never deleted, and both forwarding observers stay registered on `b` —
the invariant that the binding map exactly tracks the installed observers
is not preserved by repeated `bind_to`, and `unbind_from` cannot remove
either handle. -/
theorem claim_C10_amended (va vb : PyVal) :
    (((OVState.bind_to 3 (freshPair va vb) 0 1).bind
          (fun s1 => OVState.bind_to 3 s1 0 1)).map
        (fun s => (s.afterObs 1, s.afterObs 0, s.bindingMap 0)))
      = some ([OVObs.fwd 0 0, OVObs.fwd 1 0], [], [(1, 1)])
    ∧ (((OVState.bind_to 3 (freshPair va vb) 0 1).bind
          (fun s1 => OVState.bind_to 3 s1 0 1)).map
        (fun s2 => OVState.unbind_from s2 0 1))
      = some (Except.error PyErr.valueErr) := by
  by_cases h : va = vb <;>
    simp [OVState.bind_to, OVState.unbind_from, freshPair, OVState.setF,
      setEntry, lookupEntry, removeFirst, Option.bind, h]

/-- C9: for a bidirectionally bound pair (the system after
`ObservableValue.bind(a, b)` on fresh instances), a single `set(v)` on
either instance terminates: the run is insensitive to any fuel beyond 3
(the initial `set`, one forwarding hop to the other instance, and one hop
back that is a no-op because the value already arrived), it completes
within that bound, and it leaves both instances holding `v`. -/
theorem claim_C9_feedback_terminates (va vb v : PyVal) (fuel : Nat) :
    ((mkBound va vb).bind (fun s => OVState.setF (fuel + 3) s 0 v)
        = (mkBound va vb).bind (fun s => OVState.setF 3 s 0 v))
    ∧ (((mkBound va vb).bind (fun s => OVState.setF 3 s 0 v)).map
          (fun t => (t.values 0, t.values 1)) = some (v, v))
    ∧ ((mkBound va vb).bind (fun s => OVState.setF (fuel + 3) s 1 v)
        = (mkBound va vb).bind (fun s => OVState.setF 3 s 1 v))
    ∧ (((mkBound va vb).bind (fun s => OVState.setF 3 s 1 v)).map
          (fun t => (t.values 0, t.values 1)) = some (v, v)) := by
  have h3 : fuel + 3 = fuel + 2 + 1 := rfl
  have h2 : fuel + 2 = fuel + 1 + 1 := rfl
  by_cases hab : va = vb <;> by_cases hv : va = v
  · subst hab; subst hv
    simp [mkBound, OVState.bind, OVState.bind_to, freshPair, setEntry,
      h3, h2, OVState.setF, Option.bind]
  · subst hab
    simp [mkBound, OVState.bind, OVState.bind_to, freshPair, setEntry,
      h3, h2, OVState.setF, Option.bind, hv]
  · subst hv
    simp [mkBound, OVState.bind, OVState.bind_to, freshPair, setEntry,
      h3, h2, OVState.setF, Option.bind, hab, Ne.symm hab]
  · simp [mkBound, OVState.bind, OVState.bind_to, freshPair, setEntry,
      h3, h2, OVState.setF, Option.bind, hab, Ne.symm hab, hv, Ne.symm hv]

/-- C4: a no-op write dispatches zero before-events and zero after-events
and leaves the stored state unchanged, for each container:
`ObservableValue.set(v)` with `v` equal to the current value (for any
observers registered), `ObservableList` index assignment with the new
value equal to `l[i]`, `ObservableDict.__setitem__` with the key present
and holding the assigned value, and `ObservableObject.__setattr__` with
the attribute present and holding the assigned value. -/
theorem claim_C4_noop_writes :
    (∀ (env : Nat → ValEvent → Option PyErr) (selfId : Nat) (v : PyVal)
        (bl al : List Nat),
        ObservableValue.setFull env selfId v v bl al = (v, [], [], Option.none))
    ∧ (∀ (l : List PyVal) (i : Int) (v : PyVal), pyGetitem l i = some v →
        ObservableList.setitem l i v = ⟨l, [], [], (), Option.none⟩)
    ∧ (∀ (d : List (PyVal × PyVal)) (k v : PyVal), lookupEntry d k = some v →
        ObservableDict.setitem d k v = ⟨d, [], [], (), Option.none⟩)
    ∧ (∀ (o : List (String × PyVal)) (k : String) (v : PyVal),
        lookupEntry o k = some v →
        ObservableObject.setattr o k v = ⟨o, [], [], (), Option.none⟩) := by
  refine ⟨?_, ?_, ?_, ?_⟩
  · intro env selfId v bl al
    simp [ObservableValue.setFull]
  · intro l i v h
    obtain ⟨n, hn, hv⟩ := pyGetitem_some l i v h
    simp only [List.getD_eq_getElem?_getD] at hv
    simp [ObservableList.setitem, List.getD_eq_getElem?_getD, hn, hv]
  · intro d k v h
    simp [ObservableDict.setitem, h]
  · intro o k v h
    by_cases hp : startsUnderscore k
    · simp [ObservableObject.setattr, hp, setEntry_eq_self o k v h]
    · simp [ObservableObject.setattr, hp, h]

/-- C4, witness: concrete no-op writes on each container dispatch nothing
and change nothing. -/
theorem claim_C4_noop_writes_witness :
    ObservableValue.setFull (fun _ _ => Option.none) 0 (PyVal.int 5) (PyVal.int 5)
        [] [] = (PyVal.int 5, [], [], Option.none)
    ∧ ObservableList.setitem [PyVal.int 7] 0 (PyVal.int 7)
        = ⟨[PyVal.int 7], [], [], (), Option.none⟩
    ∧ ObservableDict.setitem [(PyVal.str "k", PyVal.int 3)] (PyVal.str "k") (PyVal.int 3)
        = ⟨[(PyVal.str "k", PyVal.int 3)], [], [], (), Option.none⟩
    ∧ ObservableObject.setattr [("x", PyVal.int 3)] "x" (PyVal.int 3)
        = ⟨[("x", PyVal.int 3)], [], [], (), Option.none⟩ :=
  ⟨claim_C4_noop_writes.1 (fun _ _ => Option.none) 0 (PyVal.int 5) [] [],
   claim_C4_noop_writes.2.1 [PyVal.int 7] 0 (PyVal.int 7) (by decide),
   claim_C4_noop_writes.2.2.1 [(PyVal.str "k", PyVal.int 3)] (PyVal.str "k")
     (PyVal.int 3) (by decide),
   claim_C4_noop_writes.2.2.2 [("x", PyVal.int 3)] "x" (PyVal.int 3) (by decide)⟩

/-- C7: `ObservableDict.pop(key, default)` with the key present dispatches
exactly one DELETE before/after pair carrying the stored value and returns
that stored value (per `dict.pop` with the key present); with the key
absent, the `self[key]` lookup raises the inherited `KeyError`, no event
is dispatched and the storage is unchanged. -/
theorem claim_C7_dict_pop (d : List (PyVal × PyVal)) (k default old : PyVal) :
    (lookupEntry d k = some old →
      ObservableDict.pop d k default
        = ⟨eraseEntry d k, [⟨ObservableDict.DELETE, k, old, PyVal.none⟩],
           [⟨ObservableDict.DELETE, k, old, PyVal.none⟩], some old, Option.none⟩)
    ∧ (lookupEntry d k = Option.none →
      ObservableDict.pop d k default = ⟨d, [], [], Option.none, some PyErr.keyErr⟩) := by
  constructor <;> intro h <;> simp [ObservableDict.pop, h]

/-- C7, witness: popping a present key returns its value with one DELETE
pair; popping an absent key raises `KeyError` with no events. -/
theorem claim_C7_dict_pop_witness :
    ObservableDict.pop [(PyVal.str "b", PyVal.int 7)] (PyVal.str "b") PyVal.none
        = ⟨[], [⟨ObservableDict.DELETE, PyVal.str "b", PyVal.int 7, PyVal.none⟩],
           [⟨ObservableDict.DELETE, PyVal.str "b", PyVal.int 7, PyVal.none⟩],
           some (PyVal.int 7), Option.none⟩
    ∧ ObservableDict.pop [(PyVal.str "b", PyVal.int 7)] (PyVal.str "c") PyVal.none
        = ⟨[(PyVal.str "b", PyVal.int 7)], [], [], Option.none, some PyErr.keyErr⟩ :=
  ⟨(claim_C7_dict_pop [(PyVal.str "b", PyVal.int 7)] (PyVal.str "b") PyVal.none
      (PyVal.int 7)).1 (by decide),
   (claim_C7_dict_pop [(PyVal.str "b", PyVal.int 7)] (PyVal.str "c") PyVal.none
      (PyVal.int 7)).2 (by decide)⟩

/-- C8: for `ObservableDict.__setitem__` and (for non-reserved attribute
names) `ObservableObject.__setattr__`, assignment to an absent
key/attribute always dispatches one CREATE before/after pair, for every
assigned value — including the value `None`, which equals the none marker
used for the absent old value; MODIFY is dispatched exactly when the
key/attribute is present and the new value differs from the stored one. -/
theorem claim_C8_create_modify :
    (∀ (d : List (PyVal × PyVal)) (k v : PyVal), lookupEntry d k = Option.none →
        ObservableDict.setitem d k v
          = ⟨setEntry d k v, [⟨ObservableDict.CREATE, k, PyVal.none, v⟩],
             [⟨ObservableDict.CREATE, k, PyVal.none, v⟩], (), Option.none⟩)
    ∧ (∀ (d : List (PyVal × PyVal)) (k v old : PyVal), lookupEntry d k = some old →
        ((ObservableDict.setitem d k v).before ≠ [] ↔ old ≠ v)
        ∧ (old ≠ v →
            ObservableDict.setitem d k v
              = ⟨setEntry d k v, [⟨ObservableDict.MODIFY, k, old, v⟩],
                 [⟨ObservableDict.MODIFY, k, old, v⟩], (), Option.none⟩))
    ∧ (∀ (o : List (String × PyVal)) (k : String) (v : PyVal),
        ¬ startsUnderscore k → lookupEntry o k = Option.none →
        ObservableObject.setattr o k v
          = ⟨setEntry o k v, [⟨ObservableObject.CREATE, k, PyVal.none, v⟩],
             [⟨ObservableObject.CREATE, k, PyVal.none, v⟩], (), Option.none⟩)
    ∧ (∀ (o : List (String × PyVal)) (k : String) (v old : PyVal),
        ¬ startsUnderscore k → lookupEntry o k = some old →
        ((ObservableObject.setattr o k v).before ≠ [] ↔ old ≠ v)
        ∧ (old ≠ v →
            ObservableObject.setattr o k v
              = ⟨setEntry o k v, [⟨ObservableObject.MODIFY, k, old, v⟩],
                 [⟨ObservableObject.MODIFY, k, old, v⟩], (), Option.none⟩)) := by
  refine ⟨?_, ?_, ?_, ?_⟩
  · intro d k v h
    simp [ObservableDict.setitem, h]
  · intro d k v old h
    by_cases hv : old = v <;> simp [ObservableDict.setitem, h, hv]
  · intro o k v hp h
    simp [ObservableObject.setattr, hp, h]
  · intro o k v old hp h
    by_cases hv : old = v <;> simp [ObservableObject.setattr, hp, h, hv]

/-- C8, witness: assigning `None` under an absent key dispatches a CREATE
pair whose old and new values are both the none marker; a MODIFY to a
different value dispatches, and writes to a present equal value are the
no-op case of the iff. -/
theorem claim_C8_create_modify_witness :
    ObservableDict.setitem [] (PyVal.str "x") PyVal.none
        = ⟨[(PyVal.str "x", PyVal.none)],
           [⟨ObservableDict.CREATE, PyVal.str "x", PyVal.none, PyVal.none⟩],
           [⟨ObservableDict.CREATE, PyVal.str "x", PyVal.none, PyVal.none⟩],
           (), Option.none⟩
    ∧ ((ObservableDict.setitem [(PyVal.str "x", PyVal.int 1)] (PyVal.str "x")
          (PyVal.int 1)).before ≠ [] ↔ PyVal.int 1 ≠ PyVal.int 1)
    ∧ ObservableObject.setattr [] "y" PyVal.none
        = ⟨[("y", PyVal.none)],
           [⟨ObservableObject.CREATE, "y", PyVal.none, PyVal.none⟩],
           [⟨ObservableObject.CREATE, "y", PyVal.none, PyVal.none⟩],
           (), Option.none⟩
    ∧ ObservableObject.setattr [("y", PyVal.int 1)] "y" (PyVal.int 2)
        = ⟨[("y", PyVal.int 2)],
           [⟨ObservableObject.MODIFY, "y", PyVal.int 1, PyVal.int 2⟩],
           [⟨ObservableObject.MODIFY, "y", PyVal.int 1, PyVal.int 2⟩],
           (), Option.none⟩ :=
  ⟨claim_C8_create_modify.1 [] (PyVal.str "x") PyVal.none (by decide),
   (claim_C8_create_modify.2.1 [(PyVal.str "x", PyVal.int 1)] (PyVal.str "x")
      (PyVal.int 1) (PyVal.int 1) (by decide)).1,
   claim_C8_create_modify.2.2.1 [] "y" PyVal.none (by decide) (by decide),
   (claim_C8_create_modify.2.2.2 [("y", PyVal.int 1)] "y" (PyVal.int 2)
      (PyVal.int 1) (by decide) (by decide)).2 (by decide)⟩


/-- C6: a raising callback aborts the rest of its observer list and the
error propagates unmodified: dispatch through the `Observable` loops
invokes exactly the callbacks up to and including the first failing one;
for `ObservableValue.set`, a before-observer failure leaves the slot at
its pre-mutation value with the after-observers never invoked, while an
after-observer failure occurs with the slot already holding the new
value. -/
theorem claim_C6_callback_failure :
    (∀ (ε : Type) (env : Nat → ε → Option PyErr) (pre post : List Nat)
        (c : Nat) (ev : ε) (e : PyErr),
        (∀ x ∈ pre, env x ev = Option.none) → env c ev = some e →
        callObservers env (pre ++ c :: post) ev
          = ((pre ++ [c]).map (fun x => (x, ev)), some e))
    ∧ (∀ (env : Nat → ValEvent → Option PyErr) (i : Nat) (v w : PyVal)
        (bl al : List Nat) (tr : List (Nat × ValEvent)) (e : PyErr),
        v ≠ w → callObservers env bl (i, v, w) = (tr, some e) →
        ObservableValue.setFull env i v w bl al = (v, tr, [], some e))
    ∧ (∀ (env : Nat → ValEvent → Option PyErr) (i : Nat) (v w : PyVal)
        (bl al : List Nat) (tr : List (Nat × ValEvent)) (e : PyErr),
        v ≠ w → (callObservers env bl (i, v, w)).2 = Option.none →
        callObservers env al (i, v, w) = (tr, some e) →
        ObservableValue.setFull env i v w bl al
          = (w, (callObservers env bl (i, v, w)).1, tr, some e)) := by
  refine ⟨?_, ?_, ?_⟩
  · intro ε env pre post c ev e hpre hc
    induction pre with
    | nil => simp [callObservers, hc]
    | cons x rest ih =>
      have hx : env x ev = Option.none := hpre x (by simp)
      have hrest : ∀ y ∈ rest, env y ev = Option.none :=
        fun y hy => hpre y (by simp [hy])
      simp [callObservers, hx, ih hrest]
  · intro env i v w bl al tr e hvw h
    simp [ObservableValue.setFull, hvw, h]
  · intro env i v w bl al tr e hvw hb ha
    simp [ObservableValue.setFull, hvw, hb, ha]

/-- C6, witness: with callback 1 raising `KeyError` and the others
succeeding, dispatch over `[0, 1, 2]` invokes only callbacks 0 and 1; a
failing before-observer leaves the value at `1` with no after dispatch,
and a failing after-observer reports the error with the value already
`2`. -/
theorem claim_C6_callback_failure_witness :
    callObservers (fun c _ => if c = 1 then some PyErr.keyErr else Option.none)
        ([0] ++ 1 :: [2]) ((0, PyVal.int 1, PyVal.int 2) : ValEvent)
      = ([(0, (0, PyVal.int 1, PyVal.int 2)), (1, (0, PyVal.int 1, PyVal.int 2))],
         some PyErr.keyErr)
    ∧ ObservableValue.setFull
        (fun c _ => if c = 1 then some PyErr.keyErr else Option.none)
        0 (PyVal.int 1) (PyVal.int 2) [0, 1, 2] [7]
      = (PyVal.int 1,
         [(0, (0, PyVal.int 1, PyVal.int 2)), (1, (0, PyVal.int 1, PyVal.int 2))],
         [], some PyErr.keyErr)
    ∧ ObservableValue.setFull
        (fun c _ => if c = 1 then some PyErr.keyErr else Option.none)
        0 (PyVal.int 1) (PyVal.int 2) [0] [1, 2]
      = (PyVal.int 2, [(0, (0, PyVal.int 1, PyVal.int 2))],
         [(1, (0, PyVal.int 1, PyVal.int 2))], some PyErr.keyErr) :=
  ⟨claim_C6_callback_failure.1 ValEvent
      (fun c _ => if c = 1 then some PyErr.keyErr else Option.none)
      [0] [2] 1 (0, PyVal.int 1, PyVal.int 2) PyErr.keyErr
      (by decide) (by decide),
   claim_C6_callback_failure.2.1
      (fun c _ => if c = 1 then some PyErr.keyErr else Option.none)
      0 (PyVal.int 1) (PyVal.int 2) [0, 1, 2] [7]
      [(0, (0, PyVal.int 1, PyVal.int 2)), (1, (0, PyVal.int 1, PyVal.int 2))]
      PyErr.keyErr (by decide) (by decide),
   claim_C6_callback_failure.2.2
      (fun c _ => if c = 1 then some PyErr.keyErr else Option.none)
      0 (PyVal.int 1) (PyVal.int 2) [0] [1, 2]
      [(1, (0, PyVal.int 1, PyVal.int 2))]
      PyErr.keyErr (by decide) (by decide) (by decide)⟩

theorem callObservers_success {ε : Type} (env : Nat → ε → Option PyErr)
    (cbs : List Nat) (ev : ε) (h : ∀ c ∈ cbs, env c ev = Option.none) :
    callObservers env cbs ev = (cbs.map (fun c => (c, ev)), Option.none) := by
  induction cbs with
  | nil => simp [callObservers]
  | cons c cs ih =>
    have hc := h c (by simp)
    have hcs : ∀ x ∈ cs, env x ev = Option.none := fun x hx => h x (by simp [hx])
    simp [callObservers, hc, ih hcs]

theorem setitemFold_fresh (ps : List (PyVal × PyVal)) :
    ∀ (st : List (PyVal × PyVal) × List DEvent × List DEvent),
    (∀ p ∈ ps, lookupEntry st.1 p.1 = Option.none) →
    (ps.map Prod.fst).Nodup →
    (ObservableDict.setitemFold st ps).2.1.length = st.2.1.length + ps.length
    ∧ (ObservableDict.setitemFold st ps).2.2.length = st.2.2.length + ps.length
    ∧ ∀ k, (∀ p ∈ ps, p.1 ≠ k) →
        lookupEntry (ObservableDict.setitemFold st ps).1 k = lookupEntry st.1 k := by
  induction ps with
  | nil =>
    intro st _ _
    simp [ObservableDict.setitemFold]
  | cons p rest ih =>
    intro st hfresh hnodup
    obtain ⟨k, v⟩ := p
    have hk : lookupEntry st.1 k = Option.none := hfresh (k, v) (by simp)
    have hnodup2 : (k :: rest.map Prod.fst).Nodup := by simpa using hnodup
    have hkrest : k ∉ rest.map Prod.fst := (List.nodup_cons.mp hnodup2).1
    have hrestfresh : ∀ q ∈ rest, lookupEntry (setEntry st.1 k v) q.1 = Option.none := by
      intro q hq
      have hqk : q.1 ≠ k := by
        intro hEq
        exact hkrest (by simpa [hEq] using List.mem_map_of_mem Prod.fst hq)
      rw [lookupEntry_setEntry_ne st.1 k q.1 v hqk]
      exact hfresh q (by simp [hq])
    have hrestnodup : (rest.map Prod.fst).Nodup := (List.nodup_cons.mp hnodup2).2
    have hstep :
        ObservableDict.setitemFold st ((k, v) :: rest)
          = ObservableDict.setitemFold
              (setEntry st.1 k v,
               st.2.1 ++ [⟨ObservableDict.CREATE, k, PyVal.none, v⟩],
               st.2.2 ++ [⟨ObservableDict.CREATE, k, PyVal.none, v⟩]) rest := by
      simp [ObservableDict.setitemFold, ObservableDict.setitem, hk]
    obtain ⟨h1, h2, h3⟩ := ih
      (setEntry st.1 k v,
       st.2.1 ++ [⟨ObservableDict.CREATE, k, PyVal.none, v⟩],
       st.2.2 ++ [⟨ObservableDict.CREATE, k, PyVal.none, v⟩]) hrestfresh hrestnodup
    refine ⟨?_, ?_, ?_⟩
    · rw [hstep, h1]; simp; omega
    · rw [hstep, h2]; simp; omega
    · intro k' hk'
      have hkk' : k ≠ k' := hk' (k, v) (by simp)
      rw [hstep, h3 k' (fun q hq => hk' q (by simp [hq])),
        lookupEntry_setEntry_ne st.1 k k' v (fun h => hkk' h.symm)]

/-- C5: every successful, non-suppressed mutating call fires exactly one
before-event and one after-event (`clear` and `extend` one pair for the
whole operation, `update` one pair per stored key), and each dispatch
invokes every registered callback of the corresponding list in
registration order, a handle registered twice being invoked twice — the
trace of a dispatch is exactly the observer list, in order, paired with
the single event. -/
theorem claim_C5_event_pairs :
    (∀ (ε : Type) (env : Nat → ε → Option PyErr) (cbs : List Nat) (ev : ε),
        (∀ c ∈ cbs, env c ev = Option.none) →
        callObservers env cbs ev = (cbs.map (fun c => (c, ev)), Option.none))
    ∧ (∀ (env : Nat → ValEvent → Option PyErr) (i : Nat) (v w : PyVal)
        (bl al : List Nat),
        v ≠ w → (∀ c ∈ bl, env c (i, v, w) = Option.none) →
        (∀ c ∈ al, env c (i, v, w) = Option.none) →
        ObservableValue.setFull env i v w bl al
          = (w, bl.map (fun c => (c, (i, v, w))),
             al.map (fun c => (c, (i, v, w))), Option.none))
    ∧ (∀ (l : List PyVal) (v : PyVal),
        (ObservableList.append l v).before.length = 1
        ∧ (ObservableList.append l v).after.length = 1)
    ∧ (∀ l : List PyVal,
        (ObservableList.clear l).before.length = 1
        ∧ (ObservableList.clear l).after.length = 1)
    ∧ (∀ l xs : List PyVal,
        (ObservableList.extend l xs).before.length = 1
        ∧ (ObservableList.extend l xs).after.length = 1)
    ∧ (∀ l : List PyVal,
        (ObservableList.reverse l).before.length = 1
        ∧ (ObservableList.reverse l).after.length = 1)
    ∧ (∀ (f : List PyVal → List PyVal) (l : List PyVal) (key : PyVal) (rev : Bool),
        (ObservableList.sort f l key rev).before.length = 1
        ∧ (ObservableList.sort f l key rev).after.length = 1)
    ∧ (∀ (l : List PyVal) (i : Int) (v : PyVal),
        (ObservableList.insert l i v).err = Option.none →
        (ObservableList.insert l i v).before.length = 1
        ∧ (ObservableList.insert l i v).after.length = 1)
    ∧ (∀ (l : List PyVal) (i : Int),
        (ObservableList.pop l i).err = Option.none →
        (ObservableList.pop l i).before.length = 1
        ∧ (ObservableList.pop l i).after.length = 1)
    ∧ (∀ (l : List PyVal) (v : PyVal),
        (ObservableList.remove l v).err = Option.none →
        (ObservableList.remove l v).before.length = 1
        ∧ (ObservableList.remove l v).after.length = 1)
    ∧ (∀ (l : List PyVal) (i : Int) (v old : PyVal),
        pyGetitem l i = some old → old ≠ v →
        (ObservableList.setitem l i v).before.length = 1
        ∧ (ObservableList.setitem l i v).after.length = 1)
    ∧ (∀ (d : List (PyVal × PyVal)) (k v : PyVal),
        lookupEntry d k = Option.none →
        (ObservableDict.setitem d k v).before.length = 1
        ∧ (ObservableDict.setitem d k v).after.length = 1)
    ∧ (∀ (d : List (PyVal × PyVal)) (k v old : PyVal),
        lookupEntry d k = some old → old ≠ v →
        (ObservableDict.setitem d k v).before.length = 1
        ∧ (ObservableDict.setitem d k v).after.length = 1)
    ∧ (∀ (d : List (PyVal × PyVal)) (k dv old : PyVal),
        lookupEntry d k = some old →
        (ObservableDict.pop d k dv).before.length = 1
        ∧ (ObservableDict.pop d k dv).after.length = 1)
    ∧ (∀ d : List (PyVal × PyVal), d ≠ [] →
        (ObservableDict.popitem d).before.length = 1
        ∧ (ObservableDict.popitem d).after.length = 1)
    ∧ (∀ (d : List (PyVal × PyVal)) (k old : PyVal),
        lookupEntry d k = some old →
        (ObservableDict.delitem d k).before.length = 1
        ∧ (ObservableDict.delitem d k).after.length = 1)
    ∧ (∀ d : List (PyVal × PyVal),
        (ObservableDict.clear d).before.length = 1
        ∧ (ObservableDict.clear d).after.length = 1)
    ∧ (∀ (o : List (String × PyVal)) (k : String) (v : PyVal),
        startsUnderscore k = false → lookupEntry o k = Option.none →
        (ObservableObject.setattr o k v).before.length = 1
        ∧ (ObservableObject.setattr o k v).after.length = 1)
    ∧ (∀ (o : List (String × PyVal)) (k : String) (v old : PyVal),
        startsUnderscore k = false → lookupEntry o k = some old → old ≠ v →
        (ObservableObject.setattr o k v).before.length = 1
        ∧ (ObservableObject.setattr o k v).after.length = 1)
    ∧ (∀ (o : List (String × PyVal)) (k : String) (old : PyVal),
        startsUnderscore k = false → lookupEntry o k = some old →
        (ObservableObject.delattr o k).before.length = 1
        ∧ (ObservableObject.delattr o k).after.length = 1)
    ∧ (∀ (d m kw : List (PyVal × PyVal)), m ≠ [] →
        (∀ p ∈ m, lookupEntry d p.1 = Option.none) → (m.map Prod.fst).Nodup →
        (ObservableDict.update d (ObservableDict.UpdateData.dictData m) kw).before.length
            = m.length
        ∧ (ObservableDict.update d (ObservableDict.UpdateData.dictData m) kw).after.length
            = m.length)
    ∧ (∀ (d ps kw : List (PyVal × PyVal)), ps ≠ [] →
        (∀ p ∈ ps, lookupEntry d p.1 = Option.none) →
        (∀ p ∈ kw, lookupEntry d p.1 = Option.none) →
        ((ps ++ kw).map Prod.fst).Nodup →
        (ObservableDict.update d (ObservableDict.UpdateData.seqData ps) kw).before.length
            = ps.length + kw.length
        ∧ (ObservableDict.update d (ObservableDict.UpdateData.seqData ps) kw).after.length
            = ps.length + kw.length) := by
  refine ⟨?_, ?_, ?_, ?_, ?_, ?_, ?_, ?_, ?_, ?_, ?_, ?_, ?_, ?_, ?_, ?_, ?_,
    ?_, ?_, ?_, ?_, ?_⟩
  · intro ε env cbs ev h
    exact callObservers_success env cbs ev h
  · intro env i v w bl al hvw hbl hal
    simp [ObservableValue.setFull, hvw,
      callObservers_success env bl (i, v, w) hbl,
      callObservers_success env al (i, v, w) hal]
  · intro l v
    simp [ObservableList.append]
  · intro l
    simp [ObservableList.clear]
  · intro l xs
    simp [ObservableList.extend]
  · intro l
    simp [ObservableList.reverse]
  · intro f l key rev
    simp [ObservableList.sort]
  · intro l i v h
    cases hol : (if i < (l.length : Int) then pyGetitem l i else some PyVal.none) with
    | none => simp [ObservableList.insert, hol] at h
    | some old => simp [ObservableList.insert, hol]
  · intro l i h
    cases hn : pyNorm l.length i with
    | none => simp [ObservableList.pop, hn] at h
    | some n => simp [ObservableList.pop, hn]
  · intro l v h
    cases hf : l.findIdx? (fun x => x = v) with
    | none => simp [ObservableList.remove, hf] at h
    | some n => simp [ObservableList.remove, hf]
  · intro l i v old h hne
    obtain ⟨n, hn, hv⟩ := pyGetitem_some l i old h
    simp only [List.getD_eq_getElem?_getD] at hv
    simp [ObservableList.setitem, List.getD_eq_getElem?_getD, hn, hv, hne]
  · intro d k v h
    simp [ObservableDict.setitem, h]
  · intro d k v old h hne
    simp [ObservableDict.setitem, h, hne]
  · intro d k dv old h
    simp [ObservableDict.pop, h]
  · intro d h
    cases hd : d.getLast? with
    | none => exact absurd (List.getLast?_eq_none_iff.mp hd) h
    | some p =>
      obtain ⟨k, old⟩ := p
      simp [ObservableDict.popitem, hd]
  · intro d k old h
    simp [ObservableDict.delitem, h]
  · intro d
    simp [ObservableDict.clear]
  · intro o k v hp h
    simp [ObservableObject.setattr, hp, h]
  · intro o k v old hp h hne
    simp [ObservableObject.setattr, hp, h, hne]
  · intro o k old hp h
    simp [ObservableObject.delattr, hp, h]
  · intro d m kw hm hfresh hnodup
    obtain ⟨h1, h2, _⟩ := setitemFold_fresh m (d, [], []) hfresh hnodup
    have hfal : (ObservableDict.UpdateData.dictData m).falsy = false := by
      cases m with
      | nil => exact absurd rfl hm
      | cons p rest => rfl
    constructor
    · simp [ObservableDict.update, hfal]
      simpa using h1
    · simp [ObservableDict.update, hfal]
      simpa using h2
  · intro d ps kw hps hfreshps hfreshkw hnodup
    have hnodup2 : (ps.map Prod.fst).Nodup ∧ (kw.map Prod.fst).Nodup
        ∧ (ps.map Prod.fst).Disjoint (kw.map Prod.fst) := by
      rw [List.map_append] at hnodup
      exact List.nodup_append.mp hnodup
    obtain ⟨h1, h2, h3⟩ := setitemFold_fresh ps (d, [], []) hfreshps hnodup2.1
    have hfreshkw2 : ∀ p ∈ kw,
        lookupEntry (ObservableDict.setitemFold (d, [], []) ps).1 p.1 = Option.none := by
      intro p hp
      rw [h3 p.1 ?_]
      · exact hfreshkw p hp
      · intro q hq hqp
        exact hnodup2.2.2 (List.mem_map_of_mem Prod.fst hq)
          (by simpa [hqp] using List.mem_map_of_mem Prod.fst hp)
    obtain ⟨h4, h5, _⟩ := setitemFold_fresh kw
      (ObservableDict.setitemFold (d, [], []) ps) hfreshkw2 hnodup2.2.1
    have hfal : (ObservableDict.UpdateData.seqData ps).falsy = false := by
      cases ps with
      | nil => exact absurd rfl hps
      | cons p rest => rfl
    constructor
    · simp [ObservableDict.update, hfal]
      rw [h4, h1]
      simp
    · simp [ObservableDict.update, hfal]
      rw [h5, h2]
      simp

/-- C5, witness: concrete instances — a handle registered twice is
invoked twice by one dispatch; a non-suppressed `set` delivers one event
to each observer list; a successful `insert`, a `popitem` and a
three-key `update` fire their documented number of event pairs. -/
theorem claim_C5_event_pairs_witness :
    callObservers (fun _ _ => Option.none) [5, 5]
        ((0, PyVal.int 1, PyVal.int 2) : ValEvent)
      = ([(5, (0, PyVal.int 1, PyVal.int 2)), (5, (0, PyVal.int 1, PyVal.int 2))],
         Option.none)
    ∧ ObservableValue.setFull (fun _ _ => Option.none) 0 (PyVal.int 1) (PyVal.int 2)
        [3] [4]
      = (PyVal.int 2, [(3, (0, PyVal.int 1, PyVal.int 2))],
         [(4, (0, PyVal.int 1, PyVal.int 2))], Option.none)
    ∧ ((ObservableList.insert [PyVal.int 1] 1 (PyVal.int 2)).before.length = 1
        ∧ (ObservableList.insert [PyVal.int 1] 1 (PyVal.int 2)).after.length = 1)
    ∧ ((ObservableDict.popitem [(PyVal.str "a", PyVal.int 1)]).before.length = 1
        ∧ (ObservableDict.popitem [(PyVal.str "a", PyVal.int 1)]).after.length = 1)
    ∧ ((ObservableDict.update []
          (ObservableDict.UpdateData.seqData
            [(PyVal.str "a", PyVal.int 1), (PyVal.str "b", PyVal.int 2)])
          [(PyVal.str "c", PyVal.int 3)]).before.length = 2 + 1
        ∧ (ObservableDict.update []
            (ObservableDict.UpdateData.seqData
              [(PyVal.str "a", PyVal.int 1), (PyVal.str "b", PyVal.int 2)])
            [(PyVal.str "c", PyVal.int 3)]).after.length = 2 + 1) := by
  refine ⟨?_, ?_, ?_, ?_, ?_⟩
  · exact claim_C5_event_pairs.1 ValEvent (fun _ _ => Option.none) [5, 5]
      (0, PyVal.int 1, PyVal.int 2) (by decide)
  · exact claim_C5_event_pairs.2.1 (fun _ _ => Option.none) 0 (PyVal.int 1)
      (PyVal.int 2) [3] [4] (by decide) (by decide) (by decide)
  · exact claim_C5_event_pairs.2.2.2.2.2.2.2.1 [PyVal.int 1] 1 (PyVal.int 2)
      (by decide)
  · exact claim_C5_event_pairs.2.2.2.2.2.2.2.2.2.2.2.2.2.2.1
      [(PyVal.str "a", PyVal.int 1)] (by decide)
  · exact claim_C5_event_pairs.2.2.2.2.2.2.2.2.2.2.2.2.2.2.2.2.2.2.2.2.2
      [] [(PyVal.str "a", PyVal.int 1), (PyVal.str "b", PyVal.int 2)]
      [(PyVal.str "c", PyVal.int 3)] (by decide) (by decide) (by decide) (by decide)
